import Mathlib

/-!
Verification development for the ambient email agent's Human-in-the-Loop
workflow coordinator, decision registry and mailbox poller
(`ui/app.py`, `gmail_poller.py`, `run_server.py`).

The registries (`pending_approvals`, `approval_events`, `approval_decisions`)
are Python dicts keyed by workflow id; they are embedded as association
lists with Python-dict update semantics (assignment replaces an existing
entry in place, otherwise appends; deletion removes the entry).  Broadcast
messages are accumulated in an ordered log.  The coordinator
`run_agent_workflow` is embedded as a total function; the pipeline stages
(`agent.invoke`, `react_agent_node`, `execute_action_node`,
`update_memory_node`) live outside this repository and are passed in as
black-box `Except`-valued parameters, mirroring the try/except structure of
the source.  Activity interleaved during each `asyncio.wait_for` window
(decision messages handled by the websocket endpoint) is modelled as an
explicit state transformer applied while the coordinator waits; the wait
resolves if and only if the workflow's event is set afterwards, and times
out otherwise.
-/

/-- Key/value lookup in an association list (first match wins),
modelling Python `dict.get`. -/
def alookup {α : Type} (k : String) : List (String × α) → Option α
  | [] => none
  | (k', v) :: rest => if k' = k then some v else alookup k rest

/-- Python `k in d` membership test. -/
def containsKey {α : Type} (k : String) (l : List (String × α)) : Bool :=
  (alookup k l).isSome

/-- Python `d[k] = v`: replace the entry in place when the key is present,
append otherwise (insertion order preserved). -/
def aset {α : Type} (k : String) (v : α) : List (String × α) → List (String × α)
  | [] => [(k, v)]
  | (k', v') :: rest => if k' = k then (k, v) :: rest else (k', v') :: aset k v rest

/-- Python `del d[k]` (removes every entry with that key). -/
def aerase {α : Type} (k : String) (l : List (String × α)) : List (String × α) :=
  l.filter (fun p => decide (p.1 ≠ k))

/-- Number of entries stored under a key. -/
def countKey {α : Type} (k : String) (l : List (String × α)) : Nat :=
  (l.filter (fun p => decide (p.1 = k))).length

/-- One inbound email as handed to the coordinator
(`email_data` in `ui/app.py`). -/
structure EmailData where
  email_id : String := ""
  email_from : String := ""
  email_to : String := ""
  email_subject : String := ""
  email_body : String := ""
deriving DecidableEq, Repr

/-- Arguments of a pending action (`pending_action["args"]`). -/
structure ActionArgs where
  recipient : String := ""
  subject : String := ""
  body : String := ""
deriving DecidableEq, Repr

/-- A pending action descriptor produced by the pipeline. -/
structure PendingAction where
  action_type : String := ""
  args : ActionArgs := {}
deriving DecidableEq, Repr

/-- Projection of the dynamic pipeline state dict (`result`) onto the keys
the coordinator reads. -/
structure StageResult where
  triage_decision : String := ""
  triage_reasoning : String := ""
  requires_approval : Bool := false
  pending_action : Option PendingAction := none
  messages : List String := []
  human_decision : Option String := none
  human_feedback : Option String := none
deriving DecidableEq, Repr

/-- Keys of the dict returned by the draft-only stage `react_agent_node`
that the coordinator merges into `result`. -/
structure DraftResult where
  pending_action : Option PendingAction := none
  messages : List String := []
deriving DecidableEq, Repr

/-- Result of `execute_action_node`. -/
structure ExecResult where
  execution_status : String := ""
  execution_result : String := ""
deriving DecidableEq, Repr

/-- A stored human decision (`approval_decisions[workflow_id]`). -/
structure DecisionRecord where
  decision : String
  edited_content : String
  timestamp : String
deriving DecidableEq, Repr

/-- A PendingApproval projection (`approval_data` in `ui/app.py`). -/
structure ApprovalData where
  workflow_id : String := ""
  action_type : String := ""
  recipient : String := ""
  subject : String := ""
  body : String := ""
  draft_preview : String := ""
  timestamp : String := ""
  notification_only : Bool := false
deriving DecidableEq, Repr

/-- Outbound decision-channel messages (`broadcast_message` payload kinds). -/
inductive Msg where
  | triage_complete (wid decision reasoning : String)
  | approval_required (data : ApprovalData)
  | workflow_timeout (wid : String)
  | workflow_complete (wid decision status result : String)
  | workflow_error (wid error : String)
  | decision_recorded (wid decision : String)
deriving DecidableEq, Repr

/-- The shared registries plus the broadcast log. -/
structure St where
  pending_approvals : List (String × ApprovalData) := []
  approval_events : List (String × Bool) := []
  approval_decisions : List (String × DecisionRecord) := []
  broadcasts : List Msg := []
deriving DecidableEq, Repr

/-- The empty registry state at process start. -/
def initSt : St := {}

/-- Append one message to the broadcast log
(`broadcast_message` never raises to the caller). -/
def addB (st : St) (m : Msg) : St :=
  { st with broadcasts := st.broadcasts ++ [m] }

/-- Primitive operations, recorded as an ordered trace so temporal claims
about the coordinator and the decision handler can be stated. -/
inductive Op where
  | invokeStage1
  | registerPending (wid : String)
  | createEvent (wid : String)
  | broadcastMsg (m : Msg)
  | beginWait (wid : String)
  | waitFired (wid : String)
  | waitTimedOut (wid : String)
  | invokeDraft
  | invokeExec (s : StageResult)
  | invokeMem
  | auditWrite (wid action_taken : String) (human_approved : Bool)
  | storeDecision (wid : String)
  | signalEvent (wid : String)
  | removePending (wid : String)
deriving DecidableEq, Repr

/-- The `human_decision` branch of `websocket_endpoint`
(`ui/app.py` lines 92-130): store the decision, set the workflow's event if
one is registered (an `asyncio.Event` that is already set stays set), delete
the pending approval if present, then broadcast `decision_recorded`.  The
cross-thread `run_coroutine_threadsafe` scheduling of the `set` is modelled
as an immediate set. -/
def handle_decision (st : St) (wid decision edited now : String) : St × List Op :=
  let dec : DecisionRecord :=
    { decision := decision, edited_content := edited, timestamp := now }
  let st1 : St := { st with approval_decisions := aset wid dec st.approval_decisions }
  let sig := containsKey wid st1.approval_events
  let st2 : St :=
    if sig then { st1 with approval_events := aset wid true st1.approval_events } else st1
  let rem := containsKey wid st2.pending_approvals
  let st3 : St :=
    if rem then { st2 with pending_approvals := aerase wid st2.pending_approvals } else st2
  let st4 : St := addB st3 (Msg.decision_recorded wid decision)
  (st4,
    Op.storeDecision wid ::
      ((if sig then [Op.signalEvent wid] else []) ++
        (if rem then [Op.removePending wid] else []) ++
        [Op.broadcastMsg (Msg.decision_recorded wid decision)]))

/-- Registering a suspension (`ui/app.py` lines 249-256 and 382-389):
`pending_approvals[wid] = data`, `approval_events[wid] = asyncio.Event()`
(a fresh, unfired event), then broadcast `approval_required`.  A plain dict
assignment: an existing entry for the same key is silently replaced. -/
def register_suspension (st : St) (wid : String) (data : ApprovalData) : St × List Op :=
  let st1 : St := { st with pending_approvals := aset wid data st.pending_approvals }
  let st2 : St := { st1 with approval_events := aset wid false st1.approval_events }
  let st3 : St := addB st2 (Msg.approval_required data)
  (st3, [Op.registerPending wid, Op.createEvent wid,
         Op.broadcastMsg (Msg.approval_required data)])

/-- Outcome of `asyncio.wait_for(approval_events[wid].wait(), timeout=600)`:
the wait resolves exactly when the workflow's event has been set during the
window, and times out otherwise. -/
def waitResult (wid : String) (st : St) : Bool :=
  (alookup wid st.approval_events).getD false

/-- `approval_decisions.get(workflow_id, {})` followed by
`.get("decision", dflt)` and `.get("edited_content", "")`: the stored
record always carries both keys, so only a missing record yields the
fail-safe default. -/
def read_decision (st : St) (wid dflt : String) : String × String :=
  match alookup wid st.approval_decisions with
  | some d => (d.decision, d.edited_content)
  | none => (dflt, "")

/-- The rendered preview built for a `notify_human` suspension
(`ui/app.py` line 244; the body is truncated to 500 characters). -/
def notify_preview (email : EmailData) : String :=
  "📧 **Notification Email**\n\nFrom: " ++ email.email_from ++
    "\nSubject: " ++ email.email_subject ++ "\n\n" ++
    email.email_body.take 500 ++ "..."

/-- The PendingApproval projection for the notify flavor
(`approval_data`, `ui/app.py` lines 238-247). -/
def mk_notify_approval (wid : String) (email : EmailData) (now : String) : ApprovalData :=
  { workflow_id := wid
    action_type := "notify_human"
    recipient := email.email_from
    subject := email.email_subject
    body := email.email_body
    draft_preview := notify_preview email
    timestamp := now
    notification_only := true }

/-- `messages[0]` rendered as the draft preview (`ui/app.py` lines 362-369);
empty when there are no messages. -/
def draft_preview_of (r : StageResult) : String :=
  match r.messages with
  | m :: _ => m
  | [] => ""

/-- The PendingApproval projection for the draft-approval flavor
(`approval_data`, `ui/app.py` lines 371-380); missing `pending_action`
fields default to the empty string as Python `.get` does. -/
def mk_draft_approval (wid : String) (r : StageResult) (now : String) : ApprovalData :=
  let pa := r.pending_action.getD {}
  { workflow_id := wid
    action_type := pa.action_type
    recipient := pa.args.recipient
    subject := pa.args.subject
    body := pa.args.body
    draft_preview := draft_preview_of r
    timestamp := now
    notification_only := false }

/-- `result = {**result, **draft_result, "requires_approval": True}`
(`ui/app.py` lines 338-342): the draft stage's keys override the stage-1
state and approval is forced. -/
def merge_draft (r : StageResult) (d : DraftResult) : StageResult :=
  { r with
    pending_action := d.pending_action
    messages := d.messages
    requires_approval := true }

/-- Terminal outcome of one workflow execution. -/
inductive Outcome where
  | completed (decision status : String)
  | timed_out
  | errored (error : String)
deriving DecidableEq, Repr

/-- Final registry state, ordered operation trace and terminal outcome of
one `run_agent_workflow` execution. -/
structure RunResult where
  st : St
  ops : List Op
  outcome : Outcome
deriving DecidableEq, Repr

/-- The `triage_decision == "notify_human"` block
(`ui/app.py` lines 234-354).  Returns either a finished run (ignore,
timeout, or a draft-stage error) or the state, trace and updated pipeline
result with which control falls through to the approval block.  `env1` is
the activity interleaved during the bounded wait. -/
def notify_block (wid : String) (email : EmailData) (now : String)
    (r : StageResult) (react_agent : Except String DraftResult)
    (env1 : St → St) (st : St) (ops0 : List Op) :
    RunResult ⊕ (St × List Op × StageResult) :=
  if r.triage_decision = "notify_human" then
    let data := mk_notify_approval wid email now
    let reg := register_suspension st wid data
    let stW := env1 reg.1
    let opsW := ops0 ++ reg.2 ++ [Op.beginWait wid]
    if waitResult wid stW then
      let opsF := opsW ++ [Op.waitFired wid]
      let dec := read_decision stW wid "ignore"
      if dec.1 = "ignore" then
        let m := Msg.workflow_complete wid "ignored" "complete" ""
        Sum.inl
          { st := addB stW m
            ops := opsF ++ [Op.broadcastMsg m, Op.auditWrite wid "none" false]
            outcome := Outcome.completed "ignored" "complete" }
      else if dec.1 = "respond" then
        match react_agent with
        | Except.error e =>
          let m := Msg.workflow_error wid ("Failed to create draft: " ++ e)
          Sum.inl
            { st := addB stW m
              ops := opsF ++ [Op.invokeDraft, Op.broadcastMsg m]
              outcome := Outcome.errored ("Failed to create draft: " ++ e) }
        | Except.ok dr =>
          Sum.inr (stW, opsF ++ [Op.invokeDraft], merge_draft r dr)
      else
        Sum.inr (stW, opsF, r)
    else
      let m := Msg.workflow_timeout wid
      Sum.inl
        { st := addB stW m
          ops := opsW ++ [Op.waitTimedOut wid, Op.broadcastMsg m]
          outcome := Outcome.timed_out }
  else
    Sum.inr (st, ops0, r)

/-- The edit substitution (`ui/app.py` lines 448-466): the decision is
recorded in the state and, for `edit` with a non-empty edited body and a
present pending action, the pending action's body is replaced. -/
def apply_decision (r : StageResult) (decision edited : String) : StageResult :=
  let u0 : StageResult := { r with human_decision := some decision }
  if decision = "edit" ∧ edited ≠ "" then
    let u1 : StageResult := { u0 with human_feedback := some edited }
    match u1.pending_action with
    | some pa =>
      { u1 with pending_action := some { pa with args := { pa.args with body := edited } } }
    | none => u1
  else
    u0

/-- The `result.get("requires_approval")` block (`ui/app.py` lines 356-530):
register the draft approval, wait, then deny / execute with the decision;
errors from the execution or audit-update stage are caught in place.  When
no approval is required the workflow completes as auto-approved
(lines 523-530).  `env2` is the activity interleaved during the wait. -/
def approval_block (wid : String) (now : String) (r : StageResult)
    (execute_action : StageResult → Except String ExecResult)
    (update_memory : ExecResult → Except String Unit)
    (env2 : St → St) (st : St) (ops0 : List Op) : RunResult :=
  if r.requires_approval then
    let data := mk_draft_approval wid r now
    let reg := register_suspension st wid data
    let stW := env2 reg.1
    let opsW := ops0 ++ reg.2 ++ [Op.beginWait wid]
    if waitResult wid stW then
      let opsF := opsW ++ [Op.waitFired wid]
      let dec := read_decision stW wid "deny"
      if dec.1 = "deny" then
        let m := Msg.workflow_complete wid "denied" "cancelled" ""
        { st := addB stW m
          ops := opsF ++ [Op.auditWrite wid "none" false, Op.broadcastMsg m]
          outcome := Outcome.completed "denied" "cancelled" }
      else
        let updated := apply_decision r dec.1 dec.2
        match execute_action updated with
        | Except.error e =>
          let m := Msg.workflow_error wid ("Execution failed: " ++ e)
          { st := addB stW m
            ops := opsF ++ [Op.invokeExec updated, Op.broadcastMsg m]
            outcome := Outcome.errored ("Execution failed: " ++ e) }
        | Except.ok ex =>
          match update_memory ex with
          | Except.error e =>
            let m := Msg.workflow_error wid ("Execution failed: " ++ e)
            { st := addB stW m
              ops := opsF ++ [Op.invokeExec updated, Op.invokeMem, Op.broadcastMsg m]
              outcome := Outcome.errored ("Execution failed: " ++ e) }
          | Except.ok _ =>
            let m := Msg.workflow_complete wid dec.1 ex.execution_status ex.execution_result
            { st := addB stW m
              ops := opsF ++ [Op.invokeExec updated, Op.invokeMem, Op.broadcastMsg m]
              outcome := Outcome.completed dec.1 ex.execution_status }
    else
      let m := Msg.workflow_timeout wid
      { st := addB stW m
        ops := opsW ++ [Op.waitTimedOut wid, Op.broadcastMsg m]
        outcome := Outcome.timed_out }
  else
    let m := Msg.workflow_complete wid "auto_approved" "complete" ""
    { st := addB st m
      ops := ops0 ++ [Op.broadcastMsg m]
      outcome := Outcome.completed "auto_approved" "complete" }

/-- `run_agent_workflow` (`ui/app.py` lines 198-541): stage 1 off-thread,
triage broadcast, the notify block, then the approval block.  The outer
`except Exception` (lines 532-541) catches a stage-1 failure, broadcasts a
`workflow_error` carrying its text and returns normally; all other raising
stages are handled by the inner try/except blocks inside the two phases, so
the embedded function is total: no error propagates out of it. -/
def run_agent_workflow (wid : String) (email : EmailData) (now : String)
    (agent_invoke : Except String StageResult)
    (react_agent : Except String DraftResult)
    (execute_action : StageResult → Except String ExecResult)
    (update_memory : ExecResult → Except String Unit)
    (env1 env2 : St → St) (st : St) : RunResult :=
  match agent_invoke with
  | Except.error e =>
    let m := Msg.workflow_error wid e
    { st := addB st m
      ops := [Op.invokeStage1, Op.broadcastMsg m]
      outcome := Outcome.errored e }
  | Except.ok result =>
    let mt := Msg.triage_complete wid result.triage_decision result.triage_reasoning
    let st1 := addB st mt
    let ops0 := [Op.invokeStage1, Op.broadcastMsg mt]
    match notify_block wid email now result react_agent env1 st1 ops0 with
    | Sum.inl res => res
    | Sum.inr fall =>
      approval_block wid now fall.2.2 execute_action update_memory env2 fall.1 fall.2.1

/-- Operations of one iteration of the poller loop
(`gmail_poller.py`, `start_polling`). -/
inductive PollOp where
  | fetchCycle
  | callbackOk (id : String)
  | markRead (id : String)
  | callbackFailed (id : String)
  | cooldown (secs : Nat)
  | sleepInterval (secs : Nat)
deriving DecidableEq, Repr

/-- `fetch_unread_emails` (`gmail_poller.py` lines 33-82): a failure of the
whole Gmail query is caught inside the method and yields an empty list
(lines 80-82), so the fetch never raises to the polling loop. -/
def fetch_unread_emails (api : Except String (List String)) : List String :=
  match api with
  | Except.ok l => l
  | Except.error _ => []

/-- The per-email loop of `start_polling` (lines 220-242): a successful
callback marks the email read and resets the consecutive-error counter to
zero; a raising callback is caught per item and increments the counter. -/
def process_emails (cb : String → Except String Unit) :
    Nat → List String → Nat × List PollOp
  | errs, [] => (errs, [])
  | errs, e :: rest =>
    match cb e with
    | Except.ok _ =>
      let r := process_emails cb 0 rest
      (r.1, PollOp.callbackOk e :: PollOp.markRead e :: r.2)
    | Except.error _ =>
      let r := process_emails cb (errs + 1) rest
      (r.1, PollOp.callbackFailed e :: r.2)

/-- One iteration of the `while self.running` body
(`gmail_poller.py` lines 212-256): fetch (errors swallowed inside the
fetch), process each email, then — when the counter has reached the
threshold of 5 — pause 300 seconds and reset the counter, and finally sleep
the poll interval.  Returns the new consecutive-error counter and the
iteration's operation trace. -/
def poller_cycle (api : Except String (List String))
    (cb : String → Except String Unit) (interval errs : Nat) :
    Nat × List PollOp :=
  let emails := fetch_unread_emails api
  let p := process_emails cb errs emails
  let after :=
    if 5 ≤ p.1 then (0, [PollOp.cooldown 300]) else (p.1, ([] : List PollOp))
  (after.1, PollOp.fetchCycle :: p.2 ++ after.2 ++ [PollOp.sleepInterval interval])

/-- The pipeline inputs passed to the execution stage, read off a trace. -/
def execInputs (ops : List Op) : List StageResult :=
  ops.filterMap (fun o =>
    match o with
    | Op.invokeExec s => some s
    | _ => none)

/-- An audit write occurs in the trace. -/
def isAuditOp : Op → Bool
  | Op.auditWrite _ _ _ => true
  | _ => false

theorem alookup_aset_self {α : Type} (k : String) (v : α) (l : List (String × α)) :
    alookup k (aset k v l) = some v := by
  induction l with
  | nil => simp [aset, alookup]
  | cons p rest ih =>
    by_cases h : p.1 = k
    · simp [aset, alookup, h]
    · simp [aset, alookup, h, ih]

theorem alookup_aset_ne {α : Type} (k k' : String) (v : α) (l : List (String × α))
    (h : k' ≠ k) : alookup k' (aset k v l) = alookup k' l := by
  have hk : ¬ k = k' := fun hh => h hh.symm
  induction l with
  | nil => simp [aset, alookup, hk]
  | cons p rest ih =>
    by_cases hp : p.1 = k
    · simp [aset, alookup, hp, hk]
    · by_cases hp' : p.1 = k'
      · simp [aset, alookup, hp, hp', h]
      · simp [aset, alookup, hp, hp', ih]

theorem alookup_aerase_self {α : Type} (k : String) (l : List (String × α)) :
    alookup k (aerase k l) = none := by
  induction l with
  | nil => simp [aerase, alookup]
  | cons p rest ih =>
    by_cases h : p.1 = k
    · simpa [aerase, alookup, h] using ih
    · simpa [aerase, alookup, h] using ih

theorem countKey_aerase {α : Type} (k : String) (l : List (String × α)) :
    countKey k (aerase k l) = 0 := by
  induction l with
  | nil => simp [aerase, countKey]
  | cons p rest ih =>
    by_cases h : p.1 = k
    · simp [aerase, countKey, h] at ih ⊢
    · simp [aerase, countKey, h] at ih ⊢

theorem countKey_cons {α : Type} (k : String) (p : String × α)
    (rest : List (String × α)) :
    countKey k (p :: rest) = countKey k rest + (if p.1 = k then 1 else 0) := by
  by_cases h : p.1 = k <;> simp [countKey, h]

theorem countKey_aset_le {α : Type} (k : String) (v : α) (l : List (String × α))
    (h : countKey k l ≤ 1) : countKey k (aset k v l) ≤ 1 := by
  induction l with
  | nil => simp [aset, countKey]
  | cons p rest ih =>
    obtain ⟨a, b⟩ := p
    rw [countKey_cons] at h
    by_cases hp : a = k
    · subst hp
      rw [aset, if_pos rfl, countKey_cons]
      simp at h ⊢
      omega
    · rw [aset, if_neg hp, countKey_cons]
      simp [hp] at h ⊢
      exact ih h

theorem countKey_eq_zero_of_not_contains {α : Type} (k : String)
    (l : List (String × α)) (h : containsKey k l = false) : countKey k l = 0 := by
  induction l with
  | nil => simp [countKey]
  | cons p rest ih =>
    by_cases hp : p.1 = k
    · exfalso
      simp [containsKey, alookup, hp] at h
    · have h' : containsKey k rest = false := by
        simpa [containsKey, alookup, hp] using h
      simpa [countKey, hp] using ih h'

theorem alookup_eq_none_of_not_contains {α : Type} (k : String)
    (l : List (String × α)) (h : containsKey k l = false) : alookup k l = none := by
  unfold containsKey at h
  cases hx : alookup k l with
  | none => rfl
  | some v => rw [hx] at h; simp at h

theorem length_aset_of_contains {α : Type} (k : String) (v : α)
    (l : List (String × α)) (h : (alookup k l).isSome = true) :
    (aset k v l).length = l.length := by
  induction l with
  | nil => simp [alookup] at h
  | cons p rest ih =>
    by_cases hp : p.1 = k
    · simp [aset, hp]
    · have h' : (alookup k rest).isSome = true := by
        simpa [alookup, hp] using h
      simp [aset, hp, ih h']

theorem handle_decision_decisions (st : St) (wid d e now : String) :
    (handle_decision st wid d e now).1.approval_decisions =
      aset wid { decision := d, edited_content := e, timestamp := now }
        st.approval_decisions := by
  simp only [handle_decision, addB]
  split <;> split <;> rfl

theorem handle_decision_events (st : St) (wid d e now : String) :
    (handle_decision st wid d e now).1.approval_events =
      (if containsKey wid st.approval_events then aset wid true st.approval_events
        else st.approval_events) := by
  simp only [handle_decision, addB]
  split <;> split <;> simp_all

theorem handle_decision_pending (st : St) (wid d e now : String) :
    (handle_decision st wid d e now).1.pending_approvals =
      (if containsKey wid st.pending_approvals then aerase wid st.pending_approvals
        else st.pending_approvals) := by
  simp only [handle_decision, addB]
  split <;> split <;> simp_all

/-- Claim C2 (confirmed): `recordDecision` stores the decision, signals a
registered unfired signal, is a no-op on an already-fired signal, removes
the PendingApproval entry, and a second decision for an already-resolved
workflow id leaves the pending registry untouched and does not raise (the
handler is a total function with no failure path); the store is the first
operation of the handler's trace, so the removal happens only after the
decision has been stored. -/
theorem record_decision_contract (st : St) (wid d e now : String) :
    (alookup wid (handle_decision st wid d e now).1.approval_decisions =
      some { decision := d, edited_content := e, timestamp := now }) ∧
    (alookup wid st.approval_events = some false →
      alookup wid (handle_decision st wid d e now).1.approval_events = some true) ∧
    (alookup wid st.approval_events = some true →
      ∀ w, alookup w (handle_decision st wid d e now).1.approval_events =
        alookup w st.approval_events) ∧
    (alookup wid (handle_decision st wid d e now).1.pending_approvals = none) ∧
    (containsKey wid st.pending_approvals = false →
      (handle_decision st wid d e now).1.pending_approvals = st.pending_approvals) ∧
    ((handle_decision st wid d e now).2.head? = some (Op.storeDecision wid)) := by
  refine ⟨?_, ?_, ?_, ?_, ?_, ?_⟩
  · rw [handle_decision_decisions]
    exact alookup_aset_self _ _ _
  · intro h
    have hc : containsKey wid st.approval_events = true := by
      simp [containsKey, h]
    rw [handle_decision_events, if_pos hc]
    exact alookup_aset_self _ _ _
  · intro h w
    have hc : containsKey wid st.approval_events = true := by
      simp [containsKey, h]
    rw [handle_decision_events, if_pos hc]
    by_cases hw : w = wid
    · subst hw
      rw [alookup_aset_self, h]
    · rw [alookup_aset_ne _ _ _ _ hw]
  · rw [handle_decision_pending]
    by_cases hc : containsKey wid st.pending_approvals
    · rw [if_pos hc]
      exact alookup_aerase_self _ _
    · rw [if_neg hc]
      exact alookup_eq_none_of_not_contains _ _ (by simpa using hc)
  · intro h
    rw [handle_decision_pending, h]
    simp
  · simp [handle_decision]

/-- State of a workflow already resolved: no pending entry, a fired signal,
a stored first decision. -/
def resolvedSt : St :=
  { pending_approvals := []
    approval_events := [("w1", true)]
    approval_decisions :=
      [("w1", { decision := "approve", edited_content := "", timestamp := "t0" })]
    broadcasts := [] }

/-- Witness for C2 at the already-resolved state: the second decision is
stored, the fired signal and the pending registry are untouched, and the
store is the handler's first operation. -/
theorem record_decision_contract_witness :
    (alookup "w1" (handle_decision resolvedSt "w1" "approve" "" "t1").1.approval_decisions =
      some { decision := "approve", edited_content := "", timestamp := "t1" }) ∧
    (alookup "w1" (handle_decision resolvedSt "w1" "approve" "" "t1").1.approval_events =
      alookup "w1" resolvedSt.approval_events) ∧
    ((handle_decision resolvedSt "w1" "approve" "" "t1").1.pending_approvals =
      resolvedSt.pending_approvals) ∧
    ((handle_decision resolvedSt "w1" "approve" "" "t1").2.head? =
      some (Op.storeDecision "w1")) := by
  obtain ⟨h1, _, h3, _, h5, h6⟩ := record_decision_contract resolvedSt "w1" "approve" "" "t1"
  exact ⟨h1, h3 (by decide) "w1", h5 (by decide), h6⟩

/-- A PendingApproval already held in the registry for workflow "w1". -/
def heldApproval : ApprovalData :=
  { workflow_id := "w1", action_type := "send_email", body := "old body" }

/-- A second PendingApproval registered under the same workflow "w1". -/
def replacingApproval : ApprovalData :=
  { workflow_id := "w1", action_type := "send_email", body := "new body" }

/-- Registry state in which workflow "w1" already holds a PendingApproval
and its suspension signal. -/
def occupiedSt : St :=
  { pending_approvals := [("w1", heldApproval)]
    approval_events := [("w1", false)]
    approval_decisions := []
    broadcasts := [] }

/-- Claim C5 (counterexample): registering a suspension for a workflow id
that already holds a PendingApproval does not signal any invariant
violation — the source performs a plain dict assignment
(`pending_approvals[workflow_id] = approval_data`), which succeeds and
silently replaces the held entry and its signal. -/
theorem register_overwrite_counterexample :
    alookup "w1" (register_suspension occupiedSt "w1" replacingApproval).1.pending_approvals =
      some replacingApproval ∧
    (register_suspension occupiedSt "w1" replacingApproval).1.pending_approvals.length = 1 ∧
    (register_suspension occupiedSt "w1" replacingApproval).2 =
      [Op.registerPending "w1", Op.createEvent "w1",
        Op.broadcastMsg (Msg.approval_required replacingApproval)] := by
  refine ⟨by decide, by decide, by decide⟩

/-- Claim C5 (amended): when a PendingApproval already exists for the
workflow id, registering a suspension succeeds and silently replaces the
existing entry in place (re-arming a fresh unfired signal) without growing
the registry; no invariant violation is signalled. -/
theorem register_replaces_existing (st : St) (wid : String)
    (dOld dNew : ApprovalData)
    (h : alookup wid st.pending_approvals = some dOld) :
    alookup wid (register_suspension st wid dNew).1.pending_approvals = some dNew ∧
    (register_suspension st wid dNew).1.pending_approvals.length =
      st.pending_approvals.length ∧
    alookup wid (register_suspension st wid dNew).1.approval_events = some false := by
  refine ⟨?_, ?_, ?_⟩
  · simp only [register_suspension, addB]
    exact alookup_aset_self _ _ _
  · simp only [register_suspension, addB]
    exact length_aset_of_contains _ _ _ (by simp [h])
  · simp only [register_suspension, addB]
    exact alookup_aset_self _ _ _

/-- Witness for C5 (amended) at a registry already holding an entry
for "w1". -/
theorem register_replaces_existing_witness :
    alookup "w1" (register_suspension occupiedSt "w1" replacingApproval).1.pending_approvals =
      some replacingApproval ∧
    (register_suspension occupiedSt "w1" replacingApproval).1.pending_approvals.length =
      occupiedSt.pending_approvals.length ∧
    alookup "w1" (register_suspension occupiedSt "w1" replacingApproval).1.approval_events =
      some false :=
  register_replaces_existing occupiedSt "w1" heldApproval replacingApproval (by decide)

/-- Callback that always succeeds (poller claims). -/
def cbAlwaysOk : String → Except String Unit := fun _ => Except.ok ()

/-- Callback that always raises (poller claims). -/
def cbAlwaysFails : String → Except String Unit := fun _ => Except.error "agent boom"

/-- Claim C6 (counterexample): with the consecutive-error counter at 3, a
cycle whose whole Gmail fetch raises ends with the counter still at 3 —
`fetch_unread_emails` swallows the cycle error and returns an empty list
(lines 80-82), so the counter is not incremented as the claim requires for
a raising fetch cycle, and a cycle completing with zero results is not
reset to zero either (the reset at line 236 only runs after a successful
callback). -/
theorem poller_counter_counterexample :
    (poller_cycle (Except.error "gmail down") cbAlwaysOk 60 3).1 = 3 ∧
    (3 : Nat) ≠ 0 ∧ (3 : Nat) ≠ 4 := by
  refine ⟨by decide, by decide, by decide⟩

theorem process_emails_last_ok (cb : String → Except String Unit) (x : String)
    (hx : cb x = Except.ok ()) :
    ∀ (l : List String) (errs : Nat), (process_emails cb errs (l ++ [x])).1 = 0 := by
  intro l
  induction l with
  | nil =>
    intro errs
    simp [process_emails, hx]
  | cons e rest ih =>
    intro errs
    cases he : cb e with
    | ok u => cases u; simp [process_emails, he, ih]
    | error msg => simp [process_emails, he, ih]

/-- Claim C6 (amended): the poller's consecutive-error counter is
incremented when a callback invocation raises (caught per item), reset to
zero after any successfully-invoked callback or after the 5-minute
cooldown, and left unchanged by a cycle that completes with zero results —
including a cycle whose whole fetch raises, since `fetch_unread_emails`
swallows its own errors and returns an empty list; when the counter reaches
the threshold of 5 the loop pauses for the 300-second cooldown and then
resets the counter to zero. -/
theorem poller_counter_behavior :
    (∀ (api : Except String (List String)) (cb : String → Except String Unit)
        (interval errs : Nat), fetch_unread_emails api = [] → errs < 5 →
        (poller_cycle api cb interval errs).1 = errs) ∧
    (∀ (cb : String → Except String Unit) (x msg : String) (interval errs : Nat),
        cb x = Except.error msg → errs + 1 < 5 →
        (poller_cycle (Except.ok [x]) cb interval errs).1 = errs + 1) ∧
    (∀ (cb : String → Except String Unit) (x : String) (l : List String)
        (interval errs : Nat), cb x = Except.ok () →
        (poller_cycle (Except.ok (l ++ [x])) cb interval errs).1 = 0) ∧
    (∀ (api : Except String (List String)) (cb : String → Except String Unit)
        (interval errs : Nat),
        5 ≤ (process_emails cb errs (fetch_unread_emails api)).1 →
        (poller_cycle api cb interval errs).1 = 0 ∧
          PollOp.cooldown 300 ∈ (poller_cycle api cb interval errs).2) := by
  refine ⟨?_, ?_, ?_, ?_⟩
  · intro api cb interval errs hfetch herrs
    simp [poller_cycle, hfetch, process_emails, Nat.not_le.mpr herrs]
  · intro cb x msg interval errs hx herrs
    simp [poller_cycle, fetch_unread_emails, process_emails, hx, Nat.not_le.mpr herrs]
  · intro cb x l interval errs hx
    have h0 := process_emails_last_ok cb x hx l errs
    simp [poller_cycle, fetch_unread_emails, h0]
  · intro api cb interval errs h5
    constructor
    · simp [poller_cycle, h5]
    · simp [poller_cycle, h5]

/-- Witness for C6 (amended): a fetch-error cycle preserves the counter, a
failing callback increments it, a cycle ending in a successful callback
resets it, and the fifth consecutive failure triggers the 300-second
cooldown and resets the counter. -/
theorem poller_counter_behavior_witness :
    (poller_cycle (Except.error "gmail down") cbAlwaysOk 60 2).1 = 2 ∧
    (poller_cycle (Except.ok ["m1"]) cbAlwaysFails 60 1).1 = 2 ∧
    (poller_cycle (Except.ok ["m1", "m2"]) cbAlwaysOk 60 3).1 = 0 ∧
    ((poller_cycle (Except.ok ["m1"]) cbAlwaysFails 60 4).1 = 0 ∧
      PollOp.cooldown 300 ∈ (poller_cycle (Except.ok ["m1"]) cbAlwaysFails 60 4).2) := by
  obtain ⟨h1, h2, h3, h4⟩ := poller_counter_behavior
  refine ⟨h1 (Except.error "gmail down") cbAlwaysOk 60 2 rfl (by decide),
    h2 cbAlwaysFails "m1" "agent boom" 60 1 rfl (by decide),
    h3 cbAlwaysOk "m2" ["m1"] 60 3 rfl,
    h4 (Except.ok ["m1"]) cbAlwaysFails 60 4 (by decide)⟩

theorem notify_block_not (wid : String) (email : EmailData) (now : String)
    (r : StageResult) (react : Except String DraftResult) (env1 : St → St)
    (st : St) (ops0 : List Op) (h : r.triage_decision ≠ "notify_human") :
    notify_block wid email now r react env1 st ops0 = Sum.inr (st, ops0, r) := by
  simp [notify_block, h]

theorem notify_block_timeout (wid : String) (email : EmailData) (now : String)
    (r : StageResult) (react : Except String DraftResult) (env1 : St → St)
    (st : St) (ops0 : List Op) (h : r.triage_decision = "notify_human")
    (hw : waitResult wid
      (env1 (register_suspension st wid (mk_notify_approval wid email now)).1) = false) :
    notify_block wid email now r react env1 st ops0 =
      Sum.inl
        { st := addB (env1 (register_suspension st wid (mk_notify_approval wid email now)).1)
            (Msg.workflow_timeout wid)
          ops := ops0 ++ (register_suspension st wid (mk_notify_approval wid email now)).2 ++
            [Op.beginWait wid, Op.waitTimedOut wid,
              Op.broadcastMsg (Msg.workflow_timeout wid)]
          outcome := Outcome.timed_out } := by
  simp [notify_block, h, hw]

theorem notify_block_ignore (wid : String) (email : EmailData) (now : String)
    (r : StageResult) (react : Except String DraftResult) (env1 : St → St)
    (st : St) (ops0 : List Op) (h : r.triage_decision = "notify_human")
    (hw : waitResult wid
      (env1 (register_suspension st wid (mk_notify_approval wid email now)).1) = true)
    (hd : (read_decision
      (env1 (register_suspension st wid (mk_notify_approval wid email now)).1)
        wid "ignore").1 = "ignore") :
    notify_block wid email now r react env1 st ops0 =
      Sum.inl
        { st := addB (env1 (register_suspension st wid (mk_notify_approval wid email now)).1)
            (Msg.workflow_complete wid "ignored" "complete" "")
          ops := ops0 ++ (register_suspension st wid (mk_notify_approval wid email now)).2 ++
            [Op.beginWait wid, Op.waitFired wid,
              Op.broadcastMsg (Msg.workflow_complete wid "ignored" "complete" ""),
              Op.auditWrite wid "none" false]
          outcome := Outcome.completed "ignored" "complete" } := by
  simp [notify_block, h, hw, hd]

theorem notify_block_respond_ok (wid : String) (email : EmailData) (now : String)
    (r : StageResult) (dr : DraftResult) (env1 : St → St)
    (st : St) (ops0 : List Op) (h : r.triage_decision = "notify_human")
    (hw : waitResult wid
      (env1 (register_suspension st wid (mk_notify_approval wid email now)).1) = true)
    (hd : (read_decision
      (env1 (register_suspension st wid (mk_notify_approval wid email now)).1)
        wid "ignore").1 = "respond") :
    notify_block wid email now r (Except.ok dr) env1 st ops0 =
      Sum.inr
        (env1 (register_suspension st wid (mk_notify_approval wid email now)).1,
          ops0 ++ (register_suspension st wid (mk_notify_approval wid email now)).2 ++
            [Op.beginWait wid, Op.waitFired wid, Op.invokeDraft],
          merge_draft r dr) := by
  simp [notify_block, h, hw, hd]

theorem notify_block_respond_err (wid : String) (email : EmailData) (now : String)
    (r : StageResult) (e : String) (env1 : St → St)
    (st : St) (ops0 : List Op) (h : r.triage_decision = "notify_human")
    (hw : waitResult wid
      (env1 (register_suspension st wid (mk_notify_approval wid email now)).1) = true)
    (hd : (read_decision
      (env1 (register_suspension st wid (mk_notify_approval wid email now)).1)
        wid "ignore").1 = "respond") :
    notify_block wid email now r (Except.error e) env1 st ops0 =
      Sum.inl
        { st := addB (env1 (register_suspension st wid (mk_notify_approval wid email now)).1)
            (Msg.workflow_error wid ("Failed to create draft: " ++ e))
          ops := ops0 ++ (register_suspension st wid (mk_notify_approval wid email now)).2 ++
            [Op.beginWait wid, Op.waitFired wid, Op.invokeDraft,
              Op.broadcastMsg (Msg.workflow_error wid ("Failed to create draft: " ++ e))]
          outcome := Outcome.errored ("Failed to create draft: " ++ e) } := by
  simp [notify_block, h, hw, hd]

theorem notify_block_other (wid : String) (email : EmailData) (now : String)
    (r : StageResult) (react : Except String DraftResult) (env1 : St → St)
    (st : St) (ops0 : List Op) (h : r.triage_decision = "notify_human")
    (hw : waitResult wid
      (env1 (register_suspension st wid (mk_notify_approval wid email now)).1) = true)
    (hd1 : (read_decision
      (env1 (register_suspension st wid (mk_notify_approval wid email now)).1)
        wid "ignore").1 ≠ "ignore")
    (hd2 : (read_decision
      (env1 (register_suspension st wid (mk_notify_approval wid email now)).1)
        wid "ignore").1 ≠ "respond") :
    notify_block wid email now r react env1 st ops0 =
      Sum.inr
        (env1 (register_suspension st wid (mk_notify_approval wid email now)).1,
          ops0 ++ (register_suspension st wid (mk_notify_approval wid email now)).2 ++
            [Op.beginWait wid, Op.waitFired wid],
          r) := by
  simp [notify_block, h, hw, hd1, hd2]

theorem approval_block_no (wid now : String) (r : StageResult)
    (exec : StageResult → Except String ExecResult)
    (mem : ExecResult → Except String Unit) (env2 : St → St)
    (st : St) (ops0 : List Op) (h : r.requires_approval = false) :
    approval_block wid now r exec mem env2 st ops0 =
      { st := addB st (Msg.workflow_complete wid "auto_approved" "complete" "")
        ops := ops0 ++
          [Op.broadcastMsg (Msg.workflow_complete wid "auto_approved" "complete" "")]
        outcome := Outcome.completed "auto_approved" "complete" } := by
  simp [approval_block, h]

theorem approval_block_timeout (wid now : String) (r : StageResult)
    (exec : StageResult → Except String ExecResult)
    (mem : ExecResult → Except String Unit) (env2 : St → St)
    (st : St) (ops0 : List Op) (h : r.requires_approval = true)
    (hw : waitResult wid
      (env2 (register_suspension st wid (mk_draft_approval wid r now)).1) = false) :
    approval_block wid now r exec mem env2 st ops0 =
      { st := addB (env2 (register_suspension st wid (mk_draft_approval wid r now)).1)
          (Msg.workflow_timeout wid)
        ops := ops0 ++ (register_suspension st wid (mk_draft_approval wid r now)).2 ++
          [Op.beginWait wid, Op.waitTimedOut wid,
            Op.broadcastMsg (Msg.workflow_timeout wid)]
        outcome := Outcome.timed_out } := by
  simp [approval_block, h, hw]

theorem approval_block_deny (wid now : String) (r : StageResult)
    (exec : StageResult → Except String ExecResult)
    (mem : ExecResult → Except String Unit) (env2 : St → St)
    (st : St) (ops0 : List Op) (h : r.requires_approval = true)
    (hw : waitResult wid
      (env2 (register_suspension st wid (mk_draft_approval wid r now)).1) = true)
    (hd : (read_decision
      (env2 (register_suspension st wid (mk_draft_approval wid r now)).1)
        wid "deny").1 = "deny") :
    approval_block wid now r exec mem env2 st ops0 =
      { st := addB (env2 (register_suspension st wid (mk_draft_approval wid r now)).1)
          (Msg.workflow_complete wid "denied" "cancelled" "")
        ops := ops0 ++ (register_suspension st wid (mk_draft_approval wid r now)).2 ++
          [Op.beginWait wid, Op.waitFired wid, Op.auditWrite wid "none" false,
            Op.broadcastMsg (Msg.workflow_complete wid "denied" "cancelled" "")]
        outcome := Outcome.completed "denied" "cancelled" } := by
  simp [approval_block, h, hw, hd]

theorem approval_block_exec_err (wid now : String) (r : StageResult)
    (exec : StageResult → Except String ExecResult)
    (mem : ExecResult → Except String Unit) (env2 : St → St)
    (st : St) (ops0 : List Op) (e : String) (h : r.requires_approval = true)
    (hw : waitResult wid
      (env2 (register_suspension st wid (mk_draft_approval wid r now)).1) = true)
    (hd : (read_decision
      (env2 (register_suspension st wid (mk_draft_approval wid r now)).1)
        wid "deny").1 ≠ "deny")
    (hx : exec (apply_decision r
      (read_decision (env2 (register_suspension st wid (mk_draft_approval wid r now)).1)
        wid "deny").1
      (read_decision (env2 (register_suspension st wid (mk_draft_approval wid r now)).1)
        wid "deny").2) = Except.error e) :
    approval_block wid now r exec mem env2 st ops0 =
      { st := addB (env2 (register_suspension st wid (mk_draft_approval wid r now)).1)
          (Msg.workflow_error wid ("Execution failed: " ++ e))
        ops := ops0 ++ (register_suspension st wid (mk_draft_approval wid r now)).2 ++
          [Op.beginWait wid, Op.waitFired wid,
            Op.invokeExec (apply_decision r
              (read_decision
                (env2 (register_suspension st wid (mk_draft_approval wid r now)).1)
                wid "deny").1
              (read_decision
                (env2 (register_suspension st wid (mk_draft_approval wid r now)).1)
                wid "deny").2),
            Op.broadcastMsg (Msg.workflow_error wid ("Execution failed: " ++ e))]
        outcome := Outcome.errored ("Execution failed: " ++ e) } := by
  simp [approval_block, h, hw, hd, hx]

theorem approval_block_mem_err (wid now : String) (r : StageResult)
    (exec : StageResult → Except String ExecResult)
    (mem : ExecResult → Except String Unit) (env2 : St → St)
    (st : St) (ops0 : List Op) (ex : ExecResult) (e : String)
    (h : r.requires_approval = true)
    (hw : waitResult wid
      (env2 (register_suspension st wid (mk_draft_approval wid r now)).1) = true)
    (hd : (read_decision
      (env2 (register_suspension st wid (mk_draft_approval wid r now)).1)
        wid "deny").1 ≠ "deny")
    (hx : exec (apply_decision r
      (read_decision (env2 (register_suspension st wid (mk_draft_approval wid r now)).1)
        wid "deny").1
      (read_decision (env2 (register_suspension st wid (mk_draft_approval wid r now)).1)
        wid "deny").2) = Except.ok ex)
    (hm : mem ex = Except.error e) :
    approval_block wid now r exec mem env2 st ops0 =
      { st := addB (env2 (register_suspension st wid (mk_draft_approval wid r now)).1)
          (Msg.workflow_error wid ("Execution failed: " ++ e))
        ops := ops0 ++ (register_suspension st wid (mk_draft_approval wid r now)).2 ++
          [Op.beginWait wid, Op.waitFired wid,
            Op.invokeExec (apply_decision r
              (read_decision
                (env2 (register_suspension st wid (mk_draft_approval wid r now)).1)
                wid "deny").1
              (read_decision
                (env2 (register_suspension st wid (mk_draft_approval wid r now)).1)
                wid "deny").2),
            Op.invokeMem,
            Op.broadcastMsg (Msg.workflow_error wid ("Execution failed: " ++ e))]
        outcome := Outcome.errored ("Execution failed: " ++ e) } := by
  simp [approval_block, h, hw, hd, hx, hm]

theorem approval_block_exec_ok (wid now : String) (r : StageResult)
    (exec : StageResult → Except String ExecResult)
    (mem : ExecResult → Except String Unit) (env2 : St → St)
    (st : St) (ops0 : List Op) (ex : ExecResult)
    (h : r.requires_approval = true)
    (hw : waitResult wid
      (env2 (register_suspension st wid (mk_draft_approval wid r now)).1) = true)
    (hd : (read_decision
      (env2 (register_suspension st wid (mk_draft_approval wid r now)).1)
        wid "deny").1 ≠ "deny")
    (hx : exec (apply_decision r
      (read_decision (env2 (register_suspension st wid (mk_draft_approval wid r now)).1)
        wid "deny").1
      (read_decision (env2 (register_suspension st wid (mk_draft_approval wid r now)).1)
        wid "deny").2) = Except.ok ex)
    (hm : mem ex = Except.ok ()) :
    approval_block wid now r exec mem env2 st ops0 =
      { st := addB (env2 (register_suspension st wid (mk_draft_approval wid r now)).1)
          (Msg.workflow_complete wid
            (read_decision (env2 (register_suspension st wid (mk_draft_approval wid r now)).1)
              wid "deny").1
            ex.execution_status ex.execution_result)
        ops := ops0 ++ (register_suspension st wid (mk_draft_approval wid r now)).2 ++
          [Op.beginWait wid, Op.waitFired wid,
            Op.invokeExec (apply_decision r
              (read_decision
                (env2 (register_suspension st wid (mk_draft_approval wid r now)).1)
                wid "deny").1
              (read_decision
                (env2 (register_suspension st wid (mk_draft_approval wid r now)).1)
                wid "deny").2),
            Op.invokeMem,
            Op.broadcastMsg (Msg.workflow_complete wid
              (read_decision
                (env2 (register_suspension st wid (mk_draft_approval wid r now)).1)
                wid "deny").1
              ex.execution_status ex.execution_result)]
        outcome := Outcome.completed
          (read_decision (env2 (register_suspension st wid (mk_draft_approval wid r now)).1)
            wid "deny").1
          ex.execution_status } := by
  simp [approval_block, h, hw, hd, hx, hm]

theorem run_ok_eq (wid : String) (email : EmailData) (now : String) (r : StageResult)
    (react : Except String DraftResult) (exec : StageResult → Except String ExecResult)
    (mem : ExecResult → Except String Unit) (env1 env2 : St → St) (st : St) :
    run_agent_workflow wid email now (Except.ok r) react exec mem env1 env2 st =
      (match notify_block wid email now r react env1
          (addB st (Msg.triage_complete wid r.triage_decision r.triage_reasoning))
          [Op.invokeStage1,
            Op.broadcastMsg (Msg.triage_complete wid r.triage_decision r.triage_reasoning)] with
        | Sum.inl res => res
        | Sum.inr fall =>
          approval_block wid now fall.2.2 exec mem env2 fall.1 fall.2.1) := rfl

theorem run_err_eq (wid : String) (email : EmailData) (now : String) (e : String)
    (react : Except String DraftResult) (exec : StageResult → Except String ExecResult)
    (mem : ExecResult → Except String Unit) (env1 env2 : St → St) (st : St) :
    run_agent_workflow wid email now (Except.error e) react exec mem env1 env2 st =
      { st := addB st (Msg.workflow_error wid e)
        ops := [Op.invokeStage1, Op.broadcastMsg (Msg.workflow_error wid e)]
        outcome := Outcome.errored e } := rfl

theorem register_events_lookup (st : St) (wid : String) (data : ApprovalData) :
    alookup wid (register_suspension st wid data).1.approval_events = some false := by
  simp only [register_suspension, addB]
  exact alookup_aset_self _ _ _

theorem register_pending_lookup (st : St) (wid : String) (data : ApprovalData) :
    alookup wid (register_suspension st wid data).1.pending_approvals = some data := by
  simp only [register_suspension, addB]
  exact alookup_aset_self _ _ _

theorem waitResult_register_id (st : St) (wid : String) (data : ApprovalData) :
    waitResult wid (register_suspension st wid data).1 = false := by
  rw [waitResult, register_events_lookup]
  rfl

theorem waitResult_handle_after_register (st : St) (wid : String) (data : ApprovalData)
    (d e n2 : String) :
    waitResult wid
      (handle_decision (register_suspension st wid data).1 wid d e n2).1 = true := by
  have hc : containsKey wid (register_suspension st wid data).1.approval_events = true := by
    simp [containsKey, register_events_lookup]
  rw [waitResult, handle_decision_events, if_pos hc, alookup_aset_self]
  rfl

theorem read_decision_handle (st : St) (wid d e n2 dflt : String) :
    read_decision (handle_decision st wid d e n2).1 wid dflt = (d, e) := by
  unfold read_decision
  rw [handle_decision_decisions, alookup_aset_self]

/-- Concrete email used by the counterexamples. -/
def cEmail : EmailData :=
  { email_id := "w1", email_from := "alice@example.com", email_to := "you@company.com"
    email_subject := "Launch question", email_body := "Hello, quick question." }

/-- Concrete stage-1 result that takes the notify flavor. -/
def cNotifyResult : StageResult :=
  { triage_decision := "notify_human", triage_reasoning := "needs human attention" }

/-- Concrete execution stage used where the path never executes. -/
def execStub : StageResult → Except String ExecResult := fun _ => Except.ok {}

/-- Concrete audit-update stage that always succeeds. -/
def memStub : ExecResult → Except String Unit := fun _ => Except.ok ()

/-- Claim C1 (counterexample): a notify-flavor workflow whose 600-second
wait sees no decision reaches the timed-out outcome and broadcasts exactly
one `workflow_timeout` — but the PendingApproval entry for "w1" is NOT
removed from the registry: the timeout handler (`ui/app.py` lines 266-272
and 399-405) only broadcasts and returns, and the only deletion site is the
decision handler (lines 122-123). -/
theorem timeout_leaves_pending_entry_counterexample :
    (run_agent_workflow "w1" cEmail "t0" (Except.ok cNotifyResult) (Except.ok {})
      execStub memStub id id initSt).outcome = Outcome.timed_out ∧
    (run_agent_workflow "w1" cEmail "t0" (Except.ok cNotifyResult) (Except.ok {})
      execStub memStub id id initSt).st.broadcasts.count (Msg.workflow_timeout "w1") = 1 ∧
    containsKey "w1"
      (run_agent_workflow "w1" cEmail "t0" (Except.ok cNotifyResult) (Except.ok {})
        execStub memStub id id initSt).st.pending_approvals = true := by
  refine ⟨by decide, by decide, by decide⟩

/-- Claim C1 (amended): for a suspended workflow (either flavor) whose
bounded wait sees no decision, the run reaches the timed-out terminal
outcome, broadcasts exactly `workflow_timeout` after the suspension
notifications and nothing else, writes no audit record and invokes no
execution stage — but the PendingApproval entry REMAINS in the registry
(the timeout handler does not delete it); a decision arriving after this
point is stored (and only then removes the stale pending entry) while the
workflow run has already returned, so it produces no state transition for
that workflow. -/
theorem timeout_terminal_behavior (wid : String) (email : EmailData) (now : String)
    (r : StageResult) (react : Except String DraftResult)
    (exec : StageResult → Except String ExecResult)
    (mem : ExecResult → Except String Unit) (st : St)
    (h : r.triage_decision = "notify_human" ∨
      (r.triage_decision ≠ "notify_human" ∧ r.requires_approval = true)) :
    ∃ data : ApprovalData,
      (run_agent_workflow wid email now (Except.ok r) react exec mem id id st).outcome =
        Outcome.timed_out ∧
      (run_agent_workflow wid email now (Except.ok r) react exec mem id id st).st.broadcasts =
        st.broadcasts ++
          [Msg.triage_complete wid r.triage_decision r.triage_reasoning,
            Msg.approval_required data, Msg.workflow_timeout wid] ∧
      alookup wid (run_agent_workflow wid email now (Except.ok r) react exec mem
        id id st).st.pending_approvals = some data ∧
      ((run_agent_workflow wid email now (Except.ok r) react exec mem
        id id st).ops.all (fun o => !(isAuditOp o)) = true) ∧
      execInputs (run_agent_workflow wid email now (Except.ok r) react exec mem
        id id st).ops = [] ∧
      (∀ d e n2 : String,
        alookup wid (handle_decision (run_agent_workflow wid email now (Except.ok r)
          react exec mem id id st).st wid d e n2).1.approval_decisions =
          some { decision := d, edited_content := e, timestamp := n2 } ∧
        alookup wid (handle_decision (run_agent_workflow wid email now (Except.ok r)
          react exec mem id id st).st wid d e n2).1.pending_approvals = none) := by
  rcases h with h | ⟨h1, h2⟩
  · refine ⟨mk_notify_approval wid email now, ?_⟩
    rw [run_ok_eq,
      notify_block_timeout wid email now r react id _ _ h
        (by rw [id_eq]; exact waitResult_register_id _ _ _)]
    refine ⟨rfl, ?_, ?_, ?_, ?_, ?_⟩
    · simp [register_suspension, addB]
    · simp only [id_eq, register_suspension, addB]
      exact alookup_aset_self _ _ _
    · simp [isAuditOp, register_suspension]
    · simp [execInputs, register_suspension]
    · intro d e n2
      constructor
      · rw [handle_decision_decisions]
        exact alookup_aset_self _ _ _
      · rw [handle_decision_pending]
        have hp : alookup wid
            (addB (register_suspension
              (addB st (Msg.triage_complete wid r.triage_decision r.triage_reasoning))
              wid (mk_notify_approval wid email now)).1
              (Msg.workflow_timeout wid)).pending_approvals =
            some (mk_notify_approval wid email now) := by
          simp only [id_eq, register_suspension, addB]
          exact alookup_aset_self _ _ _
        rw [if_pos (by simp [containsKey, hp])]
        exact alookup_aerase_self _ _
  · refine ⟨mk_draft_approval wid r now, ?_⟩
    rw [run_ok_eq, notify_block_not wid email now r react id _ _ h1]
    dsimp only
    rw [approval_block_timeout wid now r exec mem id _ _ h2
      (by rw [id_eq]; exact waitResult_register_id _ _ _)]
    refine ⟨rfl, ?_, ?_, ?_, ?_, ?_⟩
    · simp [register_suspension, addB]
    · simp only [id_eq, register_suspension, addB]
      exact alookup_aset_self _ _ _
    · simp [isAuditOp, register_suspension]
    · simp [execInputs, register_suspension]
    · intro d e n2
      constructor
      · rw [handle_decision_decisions]
        exact alookup_aset_self _ _ _
      · rw [handle_decision_pending]
        have hp : alookup wid
            (addB (register_suspension
              (addB st (Msg.triage_complete wid r.triage_decision r.triage_reasoning))
              wid (mk_draft_approval wid r now)).1
              (Msg.workflow_timeout wid)).pending_approvals =
            some (mk_draft_approval wid r now) := by
          simp only [id_eq, register_suspension, addB]
          exact alookup_aset_self _ _ _
        rw [if_pos (by simp [containsKey, hp])]
        exact alookup_aerase_self _ _

/-- Witness for C1 (amended) at a concrete notify-flavor run with no
decision arriving. -/
theorem timeout_terminal_behavior_witness :
    (run_agent_workflow "w1" cEmail "t0" (Except.ok cNotifyResult) (Except.ok {})
      execStub memStub id id initSt).outcome = Outcome.timed_out ∧
    containsKey "w1"
      (run_agent_workflow "w1" cEmail "t0" (Except.ok cNotifyResult) (Except.ok {})
        execStub memStub id id initSt).st.pending_approvals = true ∧
    execInputs (run_agent_workflow "w1" cEmail "t0" (Except.ok cNotifyResult)
      (Except.ok {}) execStub memStub id id initSt).ops = [] := by
  obtain ⟨data, h1, h2, h3, h4, h5, h6⟩ :=
    timeout_terminal_behavior "w1" cEmail "t0" cNotifyResult (Except.ok {})
      execStub memStub initSt (Or.inl rfl)
  exact ⟨h1, by simp [containsKey, h3], h5⟩

theorem approval_block_ops_shape (wid now : String) (r : StageResult)
    (exec : StageResult → Except String ExecResult)
    (mem : ExecResult → Except String Unit) (env2 : St → St)
    (st : St) (ops0 : List Op) (h : r.requires_approval = true) :
    ∃ t, (approval_block wid now r exec mem env2 st ops0).ops =
      ops0 ++ ((register_suspension st wid (mk_draft_approval wid r now)).2 ++
        Op.beginWait wid :: t) := by
  by_cases hw : waitResult wid
      (env2 (register_suspension st wid (mk_draft_approval wid r now)).1) = true
  · by_cases hd : (read_decision
        (env2 (register_suspension st wid (mk_draft_approval wid r now)).1)
          wid "deny").1 = "deny"
    · exact ⟨_, by rw [approval_block_deny wid now r exec mem env2 st ops0 h hw hd]; simp; rfl⟩
    · cases hx : exec (apply_decision r
        (read_decision (env2 (register_suspension st wid (mk_draft_approval wid r now)).1)
          wid "deny").1
        (read_decision (env2 (register_suspension st wid (mk_draft_approval wid r now)).1)
          wid "deny").2) with
      | error e =>
        exact ⟨_, by
          rw [approval_block_exec_err wid now r exec mem env2 st ops0 e h hw hd hx]; simp; rfl⟩
      | ok ex =>
        cases hm : mem ex with
        | error e =>
          exact ⟨_, by
            rw [approval_block_mem_err wid now r exec mem env2 st ops0 ex e h hw hd hx hm]
            simp; rfl⟩
        | ok u =>
          cases u
          exact ⟨_, by
            rw [approval_block_exec_ok wid now r exec mem env2 st ops0 ex h hw hd hx hm]
            simp; rfl⟩
  · replace hw : waitResult wid
        (env2 (register_suspension st wid (mk_draft_approval wid r now)).1) = false := by
      simpa using hw
    exact ⟨_, by rw [approval_block_timeout wid now r exec mem env2 st ops0 h hw]; simp; rfl⟩

theorem approval_block_ops_extends (wid now : String) (r : StageResult)
    (exec : StageResult → Except String ExecResult)
    (mem : ExecResult → Except String Unit) (env2 : St → St)
    (st : St) (ops0 : List Op) :
    ∃ t, (approval_block wid now r exec mem env2 st ops0).ops = ops0 ++ t := by
  by_cases h : r.requires_approval = true
  · obtain ⟨t, ht⟩ := approval_block_ops_shape wid now r exec mem env2 st ops0 h
    exact ⟨_, ht⟩
  · replace h : r.requires_approval = false := by simpa using h
    exact ⟨_, by rw [approval_block_no wid now r exec mem env2 st ops0 h]⟩

/-- Claim C3 (confirmed): for both suspension flavors, the coordinator's
operation trace begins with the registry insertion (PendingApproval stored,
SuspensionSignal created), then the `approval_required` broadcast, and only
then the begin-wait — registration strictly precedes broadcast, which
strictly precedes waiting; and a decision handled at any state reached
right after registration always finds the signal registered and makes the
wait resolve, so it is never missed. -/
theorem register_before_wait_no_missed_decision (wid : String) (email : EmailData)
    (now : String) (react : Except String DraftResult)
    (exec : StageResult → Except String ExecResult)
    (mem : ExecResult → Except String Unit) (env1 env2 : St → St) (st : St) :
    (∀ r : StageResult, r.triage_decision = "notify_human" →
      (run_agent_workflow wid email now (Except.ok r) react exec mem
        env1 env2 st).ops.take 6 =
        [Op.invokeStage1,
          Op.broadcastMsg (Msg.triage_complete wid r.triage_decision r.triage_reasoning),
          Op.registerPending wid, Op.createEvent wid,
          Op.broadcastMsg (Msg.approval_required (mk_notify_approval wid email now)),
          Op.beginWait wid]) ∧
    (∀ r : StageResult, r.triage_decision ≠ "notify_human" →
      r.requires_approval = true →
      (run_agent_workflow wid email now (Except.ok r) react exec mem
        env1 env2 st).ops.take 6 =
        [Op.invokeStage1,
          Op.broadcastMsg (Msg.triage_complete wid r.triage_decision r.triage_reasoning),
          Op.registerPending wid, Op.createEvent wid,
          Op.broadcastMsg (Msg.approval_required (mk_draft_approval wid r now)),
          Op.beginWait wid]) ∧
    (∀ (st' : St) (data : ApprovalData) (d e n2 : String),
      waitResult wid
        (handle_decision (register_suspension st' wid data).1 wid d e n2).1 = true) := by
  refine ⟨?_, ?_, ?_⟩
  · intro r h
    rw [run_ok_eq]
    by_cases hw : waitResult wid
        (env1 (register_suspension
          (addB st (Msg.triage_complete wid r.triage_decision r.triage_reasoning))
          wid (mk_notify_approval wid email now)).1) = true
    · by_cases hd1 : (read_decision
          (env1 (register_suspension
            (addB st (Msg.triage_complete wid r.triage_decision r.triage_reasoning))
            wid (mk_notify_approval wid email now)).1) wid "ignore").1 = "ignore"
      · rw [notify_block_ignore wid email now r react env1 _ _ h hw hd1]
        rfl
      · by_cases hd2 : (read_decision
            (env1 (register_suspension
              (addB st (Msg.triage_complete wid r.triage_decision r.triage_reasoning))
              wid (mk_notify_approval wid email now)).1) wid "ignore").1 = "respond"
        · cases react with
          | error e =>
            rw [notify_block_respond_err wid email now r e env1 _ _ h hw hd2]
            rfl
          | ok dr =>
            rw [notify_block_respond_ok wid email now r dr env1 _ _ h hw hd2]
            dsimp only
            obtain ⟨t, ht⟩ := approval_block_ops_extends wid now (merge_draft r dr)
              exec mem env2
              (env1 (register_suspension
                (addB st (Msg.triage_complete wid r.triage_decision r.triage_reasoning))
                wid (mk_notify_approval wid email now)).1)
              ([Op.invokeStage1,
                Op.broadcastMsg (Msg.triage_complete wid r.triage_decision
                  r.triage_reasoning)] ++
                (register_suspension
                  (addB st (Msg.triage_complete wid r.triage_decision r.triage_reasoning))
                  wid (mk_notify_approval wid email now)).2 ++
                [Op.beginWait wid, Op.waitFired wid, Op.invokeDraft])
            rw [ht]
            rfl
        · rw [notify_block_other wid email now r react env1 _ _ h hw hd1 hd2]
          dsimp only
          obtain ⟨t, ht⟩ := approval_block_ops_extends wid now r exec mem env2
            (env1 (register_suspension
              (addB st (Msg.triage_complete wid r.triage_decision r.triage_reasoning))
              wid (mk_notify_approval wid email now)).1)
            ([Op.invokeStage1,
              Op.broadcastMsg (Msg.triage_complete wid r.triage_decision
                r.triage_reasoning)] ++
              (register_suspension
                (addB st (Msg.triage_complete wid r.triage_decision r.triage_reasoning))
                wid (mk_notify_approval wid email now)).2 ++
              [Op.beginWait wid, Op.waitFired wid])
          rw [ht]
          rfl
    · replace hw : waitResult wid
          (env1 (register_suspension
            (addB st (Msg.triage_complete wid r.triage_decision r.triage_reasoning))
            wid (mk_notify_approval wid email now)).1) = false := by
        simpa using hw
      rw [notify_block_timeout wid email now r react env1 _ _ h hw]
      rfl
  · intro r h1 h2
    rw [run_ok_eq, notify_block_not wid email now r react env1 _ _ h1]
    dsimp only
    obtain ⟨t, ht⟩ := approval_block_ops_shape wid now r exec mem env2
      (addB st (Msg.triage_complete wid r.triage_decision r.triage_reasoning))
      [Op.invokeStage1,
        Op.broadcastMsg (Msg.triage_complete wid r.triage_decision r.triage_reasoning)] h2
    rw [ht]
    rfl
  · intro st' data d e n2
    exact waitResult_handle_after_register st' wid data d e n2

/-- Concrete stage-1 result that takes the draft-approval flavor. -/
def cDraftFlavorResult : StageResult :=
  { triage_decision := "respond", triage_reasoning := "customer question"
    requires_approval := true
    pending_action := some
      { action_type := "send_email"
        args := { recipient := "alice@example.com", subject := "Re: Launch question"
                  body := "Draft answer." } }
    messages := ["Draft answer."] }

/-- Witness for C3 at concrete runs of both flavors and a concrete
register-then-decide interleaving. -/
theorem register_before_wait_no_missed_decision_witness :
    ((run_agent_workflow "w1" cEmail "t0" (Except.ok cNotifyResult) (Except.ok {})
      execStub memStub id id initSt).ops.take 6 =
      [Op.invokeStage1,
        Op.broadcastMsg (Msg.triage_complete "w1" "notify_human" "needs human attention"),
        Op.registerPending "w1", Op.createEvent "w1",
        Op.broadcastMsg (Msg.approval_required (mk_notify_approval "w1" cEmail "t0")),
        Op.beginWait "w1"]) ∧
    ((run_agent_workflow "w1" cEmail "t0" (Except.ok cDraftFlavorResult) (Except.ok {})
      execStub memStub id id initSt).ops.take 6 =
      [Op.invokeStage1,
        Op.broadcastMsg (Msg.triage_complete "w1" "respond" "customer question"),
        Op.registerPending "w1", Op.createEvent "w1",
        Op.broadcastMsg (Msg.approval_required (mk_draft_approval "w1" cDraftFlavorResult "t0")),
        Op.beginWait "w1"]) ∧
    (waitResult "w1" (handle_decision (register_suspension initSt "w1" heldApproval).1
      "w1" "approve" "" "t1").1 = true) := by
  obtain ⟨h1, h2, h3⟩ := register_before_wait_no_missed_decision "w1" cEmail "t0"
    (Except.ok {}) execStub memStub id id initSt
  exact ⟨h1 cNotifyResult rfl, h2 cDraftFlavorResult (by decide) rfl,
    h3 initSt heldApproval "approve" "" "t1"⟩

theorem apply_decision_edit (r : StageResult) (pa : PendingAction) (edited : String)
    (h3 : r.pending_action = some pa) (h4 : edited ≠ "") :
    apply_decision r "edit" edited =
      { r with human_decision := some "edit", human_feedback := some edited
               pending_action := some { pa with args := { pa.args with body := edited } } } := by
  unfold apply_decision
  rw [if_pos ⟨rfl, h4⟩]
  simp [h3]

theorem approval_block_execInputs (wid now : String) (r : StageResult)
    (exec : StageResult → Except String ExecResult)
    (mem : ExecResult → Except String Unit) (env2 : St → St)
    (st : St) (ops0 : List Op) (h : r.requires_approval = true)
    (hw : waitResult wid
      (env2 (register_suspension st wid (mk_draft_approval wid r now)).1) = true)
    (hd : (read_decision
      (env2 (register_suspension st wid (mk_draft_approval wid r now)).1)
        wid "deny").1 ≠ "deny")
    (hops : execInputs ops0 = []) :
    execInputs (approval_block wid now r exec mem env2 st ops0).ops =
      [apply_decision r
        (read_decision (env2 (register_suspension st wid (mk_draft_approval wid r now)).1)
          wid "deny").1
        (read_decision (env2 (register_suspension st wid (mk_draft_approval wid r now)).1)
          wid "deny").2] := by
  rcases hx : exec (apply_decision r
      (read_decision (env2 (register_suspension st wid (mk_draft_approval wid r now)).1)
        wid "deny").1
      (read_decision (env2 (register_suspension st wid (mk_draft_approval wid r now)).1)
        wid "deny").2) with e | ex
  · rw [approval_block_exec_err wid now r exec mem env2 st ops0 e h hw hd hx]
    simp [execInputs, register_suspension, List.filterMap_append]
    exact List.filterMap_eq_nil_iff.mp (by simpa [execInputs] using hops)
  · rcases hm : mem ex with e2 | u
    · rw [approval_block_mem_err wid now r exec mem env2 st ops0 ex e2 h hw hd hx hm]
      simp [execInputs, register_suspension, List.filterMap_append]
      exact List.filterMap_eq_nil_iff.mp (by simpa [execInputs] using hops)
    · cases u
      rw [approval_block_exec_ok wid now r exec mem env2 st ops0 ex h hw hd hx hm]
      simp [execInputs, register_suspension, List.filterMap_append]
      exact List.filterMap_eq_nil_iff.mp (by simpa [execInputs] using hops)

set_option maxHeartbeats 1000000 in
/-- Claim C9 (confirmed): a draft-approval suspension resolved with verdict
`edit` and a non-empty edited body makes the coordinator substitute the
edited content into the pending action's body field before invoking the
execution stage — the execution stage receives exactly the state whose
pending action body is the edited content, whatever the execution or
audit-update stage then returns. -/
theorem edit_substitutes_body (wid : String) (email : EmailData) (now n2 : String)
    (r : StageResult) (react : Except String DraftResult)
    (exec : StageResult → Except String ExecResult)
    (mem : ExecResult → Except String Unit) (env1 : St → St) (st : St)
    (pa : PendingAction) (edited : String)
    (h1 : r.triage_decision ≠ "notify_human")
    (h2 : r.requires_approval = true)
    (h3 : r.pending_action = some pa)
    (h4 : edited ≠ "") :
    execInputs (run_agent_workflow wid email now (Except.ok r) react exec mem env1
      (fun s => (handle_decision s wid "edit" edited n2).1) st).ops =
      [{ r with human_decision := some "edit", human_feedback := some edited
                pending_action := some { pa with args := { pa.args with body := edited } } }] := by
  have hw : waitResult wid
      ((fun s => (handle_decision s wid "edit" edited n2).1)
        ((register_suspension
          (addB st (Msg.triage_complete wid r.triage_decision r.triage_reasoning))
          wid (mk_draft_approval wid r now)).1)) = true :=
    waitResult_handle_after_register _ _ _ _ _ _
  have hread : read_decision
      ((fun s => (handle_decision s wid "edit" edited n2).1)
        ((register_suspension
          (addB st (Msg.triage_complete wid r.triage_decision r.triage_reasoning))
          wid (mk_draft_approval wid r now)).1)) wid "deny" = ("edit", edited) :=
    read_decision_handle _ _ _ _ _ _
  have hd : (read_decision
      ((fun s => (handle_decision s wid "edit" edited n2).1)
        ((register_suspension
          (addB st (Msg.triage_complete wid r.triage_decision r.triage_reasoning))
          wid (mk_draft_approval wid r now)).1)) wid "deny").1 ≠ "deny" := by
    rw [hread]
    exact fun hcon => (by decide : ¬ ("edit" = "deny")) hcon
  rw [run_ok_eq, notify_block_not wid email now r react env1 _ _ h1]
  dsimp only
  rw [approval_block_execInputs wid now r exec mem
    (fun s => (handle_decision s wid "edit" edited n2).1) _ _ h2 hw hd
    (by simp [execInputs])]
  rw [hread, apply_decision_edit r pa edited h3 h4]

/-- Witness for C9 at a concrete draft-approval run resolved with
`edit` / "New body". -/
theorem edit_substitutes_body_witness :
    execInputs (run_agent_workflow "w1" cEmail "t0" (Except.ok cDraftFlavorResult)
      (Except.ok {}) execStub memStub id
      (fun s => (handle_decision s "w1" "edit" "New body" "t1").1) initSt).ops =
      [{ cDraftFlavorResult with
          human_decision := some "edit", human_feedback := some "New body"
          pending_action := some
            { action_type := "send_email"
              args := { recipient := "alice@example.com", subject := "Re: Launch question"
                        body := "New body" } } }] :=
  edit_substitutes_body "w1" cEmail "t0" "t1" cDraftFlavorResult (Except.ok {})
    execStub memStub id initSt
    { action_type := "send_email"
      args := { recipient := "alice@example.com", subject := "Re: Launch question"
                body := "Draft answer." } }
    "New body" (by decide) rfl rfl (by decide)

/-- Environment in which the workflow's suspension signal fires during the
wait but no decision record is stored for it. -/
def fireOnly (wid : String) : St → St :=
  fun s => { s with approval_events := aset wid true s.approval_events }

theorem waitResult_fireOnly (wid : String) (s : St) :
    waitResult wid (fireOnly wid s) = true := by
  rw [waitResult, fireOnly]
  simp [alookup_aset_self]

theorem read_decision_fireOnly_register (wid dflt : String) (st : St)
    (data : ApprovalData) (m : Msg)
    (hnod : alookup wid st.approval_decisions = none) :
    read_decision (fireOnly wid (register_suspension (addB st m) wid data).1) wid dflt =
      (dflt, "") := by
  rw [read_decision]
  have hdec : (fireOnly wid
      (register_suspension (addB st m) wid data).1).approval_decisions =
      st.approval_decisions := by
    simp [fireOnly, register_suspension, addB]
  rw [hdec, hnod]

/-- Claim C10 (confirmed): when the suspension signal fires but no decision
record is present for the workflow id at the moment the coordinator reads
it, the coordinator falls back to a non-executing verdict — "ignore" for
the notify flavor (completing as ignored) and "deny" for the draft-approval
flavor (completing as denied/cancelled) — and the execution stage is never
invoked. -/
theorem missing_decision_defaults (wid : String) (email : EmailData) (now : String)
    (react : Except String DraftResult) (exec : StageResult → Except String ExecResult)
    (mem : ExecResult → Except String Unit) (envO : St → St) (st : St)
    (hnod : alookup wid st.approval_decisions = none) :
    (∀ r : StageResult, r.triage_decision = "notify_human" →
      (run_agent_workflow wid email now (Except.ok r) react exec mem
        (fireOnly wid) envO st).outcome = Outcome.completed "ignored" "complete" ∧
      execInputs (run_agent_workflow wid email now (Except.ok r) react exec mem
        (fireOnly wid) envO st).ops = []) ∧
    (∀ r : StageResult, r.triage_decision ≠ "notify_human" →
      r.requires_approval = true →
      (run_agent_workflow wid email now (Except.ok r) react exec mem
        envO (fireOnly wid) st).outcome = Outcome.completed "denied" "cancelled" ∧
      execInputs (run_agent_workflow wid email now (Except.ok r) react exec mem
        envO (fireOnly wid) st).ops = []) := by
  constructor
  · intro r h
    have hd : (read_decision
        (fireOnly wid (register_suspension
          (addB st (Msg.triage_complete wid r.triage_decision r.triage_reasoning))
          wid (mk_notify_approval wid email now)).1) wid "ignore").1 = "ignore" := by
      rw [read_decision_fireOnly_register wid "ignore" st
        (mk_notify_approval wid email now) _ hnod]
    rw [run_ok_eq, notify_block_ignore wid email now r react (fireOnly wid) _ _ h
      (waitResult_fireOnly wid _) hd]
    exact ⟨rfl, by simp [execInputs, register_suspension]⟩
  · intro r h1 h2
    have hd : (read_decision
        (fireOnly wid (register_suspension
          (addB st (Msg.triage_complete wid r.triage_decision r.triage_reasoning))
          wid (mk_draft_approval wid r now)).1) wid "deny").1 = "deny" := by
      rw [read_decision_fireOnly_register wid "deny" st
        (mk_draft_approval wid r now) _ hnod]
    rw [run_ok_eq, notify_block_not wid email now r react envO _ _ h1]
    dsimp only
    rw [approval_block_deny wid now r exec mem (fireOnly wid) _ _ h2
      (waitResult_fireOnly wid _) hd]
    exact ⟨rfl, by simp [execInputs, register_suspension]⟩

/-- Witness for C10 at concrete runs of both flavors with a fired signal
and an empty decision store. -/
theorem missing_decision_defaults_witness :
    ((run_agent_workflow "w1" cEmail "t0" (Except.ok cNotifyResult) (Except.ok {})
      execStub memStub (fireOnly "w1") id initSt).outcome =
      Outcome.completed "ignored" "complete") ∧
    (execInputs (run_agent_workflow "w1" cEmail "t0" (Except.ok cNotifyResult)
      (Except.ok {}) execStub memStub (fireOnly "w1") id initSt).ops = []) ∧
    ((run_agent_workflow "w1" cEmail "t0" (Except.ok cDraftFlavorResult) (Except.ok {})
      execStub memStub id (fireOnly "w1") initSt).outcome =
      Outcome.completed "denied" "cancelled") ∧
    (execInputs (run_agent_workflow "w1" cEmail "t0" (Except.ok cDraftFlavorResult)
      (Except.ok {}) execStub memStub id (fireOnly "w1") initSt).ops = []) := by
  obtain ⟨hA, hB⟩ := missing_decision_defaults "w1" cEmail "t0" (Except.ok {})
    execStub memStub id initSt rfl
  obtain ⟨h1, h2⟩ := hA cNotifyResult rfl
  obtain ⟨h3, h4⟩ := hB cDraftFlavorResult (by decide) rfl
  exact ⟨h1, h2, h3, h4⟩

theorem approval_block_error_broadcast (wid now : String) (r : StageResult)
    (exec : StageResult → Except String ExecResult)
    (mem : ExecResult → Except String Unit) (env2 : St → St)
    (st : St) (ops0 : List Op) :
    ∀ e, (approval_block wid now r exec mem env2 st ops0).outcome = Outcome.errored e →
      Msg.workflow_error wid e ∈
        (approval_block wid now r exec mem env2 st ops0).st.broadcasts := by
  intro e he
  by_cases h : r.requires_approval = true
  · by_cases hw : waitResult wid
        (env2 (register_suspension st wid (mk_draft_approval wid r now)).1) = true
    · by_cases hd : (read_decision
          (env2 (register_suspension st wid (mk_draft_approval wid r now)).1)
            wid "deny").1 = "deny"
      · rw [approval_block_deny wid now r exec mem env2 st ops0 h hw hd] at he
        simp at he
      · rcases hx : exec (apply_decision r
            (read_decision
              (env2 (register_suspension st wid (mk_draft_approval wid r now)).1)
                wid "deny").1
            (read_decision
              (env2 (register_suspension st wid (mk_draft_approval wid r now)).1)
                wid "deny").2) with e1 | ex
        · rw [approval_block_exec_err wid now r exec mem env2 st ops0 e1 h hw hd hx]
            at he ⊢
          simp only [Outcome.errored.injEq] at he
          subst he
          simp [addB]
        · rcases hm : mem ex with e2 | u
          · rw [approval_block_mem_err wid now r exec mem env2 st ops0 ex e2 h hw hd hx hm]
              at he ⊢
            simp only [Outcome.errored.injEq] at he
            subst he
            simp [addB]
          · cases u
            rw [approval_block_exec_ok wid now r exec mem env2 st ops0 ex h hw hd hx hm]
              at he
            simp at he
    · replace hw : waitResult wid
          (env2 (register_suspension st wid (mk_draft_approval wid r now)).1) = false := by
        simpa using hw
      rw [approval_block_timeout wid now r exec mem env2 st ops0 h hw] at he
      simp at he
  · replace h : r.requires_approval = false := by simpa using h
    rw [approval_block_no wid now r exec mem env2 st ops0 h] at he
    simp at he

/-- Claim C7 (confirmed): errors raised by pipeline stages are caught at the
workflow boundary and surfaced as a `workflow_error` broadcast carrying the
error text, and never propagate out of the run function (the embedded run is
total, mirroring the source's outer and inner try/except blocks): a stage-1
failure yields the errored outcome with its text broadcast, and every
errored outcome — stage 1, draft stage, or execution/audit stage — has its
`workflow_error` message in the broadcast log, so a failing workflow ends in
a broadcast, not an exception that could halt unrelated workflows or the
poller. -/
theorem workflow_error_containment (wid : String) (email : EmailData) (now : String)
    (agentRes : Except String StageResult) (react : Except String DraftResult)
    (exec : StageResult → Except String ExecResult)
    (mem : ExecResult → Except String Unit) (env1 env2 : St → St) (st : St) :
    (∀ e, agentRes = Except.error e →
      (run_agent_workflow wid email now agentRes react exec mem env1 env2 st).outcome =
        Outcome.errored e ∧
      Msg.workflow_error wid e ∈
        (run_agent_workflow wid email now agentRes react exec mem env1 env2 st).st.broadcasts) ∧
    (∀ e, (run_agent_workflow wid email now agentRes react exec mem env1 env2 st).outcome =
        Outcome.errored e →
      Msg.workflow_error wid e ∈
        (run_agent_workflow wid email now agentRes react exec mem env1 env2 st).st.broadcasts) := by
  constructor
  · intro e he
    subst he
    rw [run_err_eq]
    exact ⟨rfl, by simp [addB]⟩
  · intro e he
    rcases agentRes with e0 | r
    · rw [run_err_eq] at he ⊢
      simp only [Outcome.errored.injEq] at he
      subst he
      simp [addB]
    · rw [run_ok_eq] at he ⊢
      by_cases h : r.triage_decision = "notify_human"
      · by_cases hw : waitResult wid
            (env1 (register_suspension
              (addB st (Msg.triage_complete wid r.triage_decision r.triage_reasoning))
              wid (mk_notify_approval wid email now)).1) = true
        · by_cases hd1 : (read_decision
              (env1 (register_suspension
                (addB st (Msg.triage_complete wid r.triage_decision r.triage_reasoning))
                wid (mk_notify_approval wid email now)).1) wid "ignore").1 = "ignore"
          · rw [notify_block_ignore wid email now r react env1 _ _ h hw hd1] at he
            simp at he
          · by_cases hd2 : (read_decision
                (env1 (register_suspension
                  (addB st (Msg.triage_complete wid r.triage_decision r.triage_reasoning))
                  wid (mk_notify_approval wid email now)).1) wid "ignore").1 = "respond"
            · rcases react with e1 | dr
              · rw [notify_block_respond_err wid email now r e1 env1 _ _ h hw hd2]
                  at he ⊢
                simp only [Outcome.errored.injEq] at he
                subst he
                simp [addB]
              · rw [notify_block_respond_ok wid email now r dr env1 _ _ h hw hd2]
                  at he ⊢
                dsimp only at he ⊢
                exact approval_block_error_broadcast wid now (merge_draft r dr)
                  exec mem env2 _ _ e he
            · rw [notify_block_other wid email now r react env1 _ _ h hw hd1 hd2]
                at he ⊢
              dsimp only at he ⊢
              exact approval_block_error_broadcast wid now r exec mem env2 _ _ e he
        · replace hw : waitResult wid
              (env1 (register_suspension
                (addB st (Msg.triage_complete wid r.triage_decision r.triage_reasoning))
                wid (mk_notify_approval wid email now)).1) = false := by
            simpa using hw
          rw [notify_block_timeout wid email now r react env1 _ _ h hw] at he
          simp at he
      · rw [notify_block_not wid email now r react env1 _ _ h] at he ⊢
        dsimp only at he ⊢
        exact approval_block_error_broadcast wid now r exec mem env2 _ _ e he

/-- Witness for C7 at a concrete run whose stage 1 raises. -/
theorem workflow_error_containment_witness :
    ((run_agent_workflow "w1" cEmail "t0" (Except.error "agent boom") (Except.ok {})
      execStub memStub id id initSt).outcome = Outcome.errored "agent boom") ∧
    (Msg.workflow_error "w1" "agent boom" ∈
      (run_agent_workflow "w1" cEmail "t0" (Except.error "agent boom") (Except.ok {})
        execStub memStub id id initSt).st.broadcasts) := by
  obtain ⟨h1, h2⟩ := workflow_error_containment "w1" cEmail "t0"
    (Except.error "agent boom") (Except.ok {}) execStub memStub id id initSt
  obtain ⟨ha, hb⟩ := h1 "agent boom" rfl
  exact ⟨ha, hb⟩

theorem approval_block_anatomy (wid now : String) (r : StageResult)
    (exec : StageResult → Except String ExecResult)
    (mem : ExecResult → Except String Unit) (env2 : St → St)
    (st : St) (ops0 : List Op) (h : r.requires_approval = true) :
    ∃ t, (approval_block wid now r exec mem env2 st ops0).ops =
        ops0 ++ ((register_suspension st wid (mk_draft_approval wid r now)).2 ++
          Op.beginWait wid :: t) ∧
      (∀ w, Op.registerPending w ∉ t) ∧
      ((approval_block wid now r exec mem env2 st ops0).outcome ≠ Outcome.timed_out →
        t.count (Op.waitFired wid) = 1) ∧
      (approval_block wid now r exec mem env2 st ops0).st.pending_approvals =
        (env2 (register_suspension st wid (mk_draft_approval wid r now)).1).pending_approvals := by
  by_cases hw : waitResult wid
      (env2 (register_suspension st wid (mk_draft_approval wid r now)).1) = true
  · by_cases hd : (read_decision
        (env2 (register_suspension st wid (mk_draft_approval wid r now)).1)
          wid "deny").1 = "deny"
    · rw [approval_block_deny wid now r exec mem env2 st ops0 h hw hd]
      exact ⟨_, by simp; rfl, by simp, fun _ => by simp [List.count_cons], by simp [addB]⟩
    · rcases hx : exec (apply_decision r
          (read_decision
            (env2 (register_suspension st wid (mk_draft_approval wid r now)).1)
              wid "deny").1
          (read_decision
            (env2 (register_suspension st wid (mk_draft_approval wid r now)).1)
              wid "deny").2) with e1 | ex
      · rw [approval_block_exec_err wid now r exec mem env2 st ops0 e1 h hw hd hx]
        exact ⟨_, by simp; rfl, by simp, fun _ => by simp [List.count_cons], by simp [addB]⟩
      · rcases hm : mem ex with e2 | u
        · rw [approval_block_mem_err wid now r exec mem env2 st ops0 ex e2 h hw hd hx hm]
          exact ⟨_, by simp; rfl, by simp, fun _ => by simp [List.count_cons], by simp [addB]⟩
        · cases u
          rw [approval_block_exec_ok wid now r exec mem env2 st ops0 ex h hw hd hx hm]
          exact ⟨_, by simp; rfl, by simp, fun _ => by simp [List.count_cons], by simp [addB]⟩
  · replace hw : waitResult wid
        (env2 (register_suspension st wid (mk_draft_approval wid r now)).1) = false := by
      simpa using hw
    rw [approval_block_timeout wid now r exec mem env2 st ops0 h hw]
    exact ⟨_, by simp; rfl, by simp, fun hne => absurd rfl hne, by simp [addB]⟩

set_option maxHeartbeats 1000000 in
/-- Claim C4 (confirmed): a notify-flavor workflow whose first suspension
resolves with verdict `respond` invokes the draft-only pipeline stage, then
creates a second PendingApproval and a fresh SuspensionSignal under the same
workflow id — the draft invocation sits strictly between the two
registrations in the trace, the registry never holds more than one entry for
that id (the dict assignment replaces), and the workflow reaches a COMPLETED
outcome only when the second suspension's wait has fired as well (both waits
fired exactly once each). -/
theorem respond_resuspension (wid : String) (email : EmailData) (now n2 : String)
    (r : StageResult) (dr : DraftResult)
    (exec : StageResult → Except String ExecResult)
    (mem : ExecResult → Except String Unit) (env2 : St → St) (st : St)
    (h : r.triage_decision = "notify_human")
    (hc : countKey wid st.pending_approvals ≤ 1)
    (henv : ∀ s, countKey wid s.pending_approvals ≤ 1 →
      countKey wid ((env2 s).pending_approvals) ≤ 1) :
    (Op.invokeDraft ∈ (run_agent_workflow wid email now (Except.ok r) (Except.ok dr)
      exec mem (fun s => (handle_decision s wid "respond" "" n2).1) env2 st).ops) ∧
    ((run_agent_workflow wid email now (Except.ok r) (Except.ok dr)
      exec mem (fun s => (handle_decision s wid "respond" "" n2).1) env2 st).ops.count
        (Op.registerPending wid) = 2) ∧
    (∃ l1 l2, (run_agent_workflow wid email now (Except.ok r) (Except.ok dr)
        exec mem (fun s => (handle_decision s wid "respond" "" n2).1) env2 st).ops =
        l1 ++ Op.invokeDraft :: l2 ∧
      Op.registerPending wid ∈ l1 ∧ Op.registerPending wid ∈ l2) ∧
    (countKey wid (run_agent_workflow wid email now (Except.ok r) (Except.ok dr)
      exec mem (fun s => (handle_decision s wid "respond" "" n2).1) env2
        st).st.pending_approvals ≤ 1) ∧
    (∀ d s', (run_agent_workflow wid email now (Except.ok r) (Except.ok dr)
        exec mem (fun s => (handle_decision s wid "respond" "" n2).1) env2 st).outcome =
        Outcome.completed d s' →
      (run_agent_workflow wid email now (Except.ok r) (Except.ok dr)
        exec mem (fun s => (handle_decision s wid "respond" "" n2).1) env2 st).ops.count
          (Op.waitFired wid) = 2) := by
  have hw1 : waitResult wid
      ((fun s => (handle_decision s wid "respond" "" n2).1)
        ((register_suspension
          (addB st (Msg.triage_complete wid r.triage_decision r.triage_reasoning))
          wid (mk_notify_approval wid email now)).1)) = true :=
    waitResult_handle_after_register _ _ _ _ _ _
  have hrd : read_decision
      ((fun s => (handle_decision s wid "respond" "" n2).1)
        ((register_suspension
          (addB st (Msg.triage_complete wid r.triage_decision r.triage_reasoning))
          wid (mk_notify_approval wid email now)).1)) wid "ignore" = ("respond", "") :=
    read_decision_handle _ _ _ _ _ _
  have hd2 : (read_decision
      ((fun s => (handle_decision s wid "respond" "" n2).1)
        ((register_suspension
          (addB st (Msg.triage_complete wid r.triage_decision r.triage_reasoning))
          wid (mk_notify_approval wid email now)).1)) wid "ignore").1 = "respond" := by
    rw [hrd]
  rw [run_ok_eq, notify_block_respond_ok wid email now r dr _ _ _ h hw1 hd2]
  dsimp only
  obtain ⟨t, ht, hnoreg, hcount, hpend⟩ :=
    approval_block_anatomy wid now (merge_draft r dr) exec mem env2
      ((handle_decision
        ((register_suspension
          (addB st (Msg.triage_complete wid r.triage_decision r.triage_reasoning))
          wid (mk_notify_approval wid email now)).1) wid "respond" "" n2).1)
      ([Op.invokeStage1,
        Op.broadcastMsg (Msg.triage_complete wid r.triage_decision r.triage_reasoning)] ++
        (register_suspension
          (addB st (Msg.triage_complete wid r.triage_decision r.triage_reasoning))
          wid (mk_notify_approval wid email now)).2 ++
        [Op.beginWait wid, Op.waitFired wid, Op.invokeDraft])
      (by simp [merge_draft])
  refine ⟨?_, ?_, ?_, ?_, ?_⟩
  · rw [ht]
    simp [register_suspension]
  · rw [ht]
    simp [List.count_append, List.count_cons, register_suspension,
      List.count_eq_zero.mpr (hnoreg wid)]
  · refine ⟨[Op.invokeStage1,
      Op.broadcastMsg (Msg.triage_complete wid r.triage_decision r.triage_reasoning)] ++
      (register_suspension
        (addB st (Msg.triage_complete wid r.triage_decision r.triage_reasoning))
        wid (mk_notify_approval wid email now)).2 ++
      [Op.beginWait wid, Op.waitFired wid],
      (register_suspension
        ((handle_decision
          ((register_suspension
            (addB st (Msg.triage_complete wid r.triage_decision r.triage_reasoning))
            wid (mk_notify_approval wid email now)).1) wid "respond" "" n2).1)
        wid (mk_draft_approval wid (merge_draft r dr) now)).2 ++
        Op.beginWait wid :: t, ?_, ?_, ?_⟩
    · rw [ht]
      simp
    · simp [register_suspension]
    · simp [register_suspension]
  · rw [hpend]
    have hc1 : countKey wid
        ((register_suspension
          (addB st (Msg.triage_complete wid r.triage_decision r.triage_reasoning))
          wid (mk_notify_approval wid email now)).1).pending_approvals ≤ 1 := by
      simp only [register_suspension, addB]
      exact countKey_aset_le _ _ _ hc
    have hc2 : countKey wid
        ((handle_decision
          ((register_suspension
            (addB st (Msg.triage_complete wid r.triage_decision r.triage_reasoning))
            wid (mk_notify_approval wid email now)).1) wid "respond" "" n2).1).pending_approvals ≤ 1 := by
      rw [handle_decision_pending]
      by_cases hcc : containsKey wid
          ((register_suspension
            (addB st (Msg.triage_complete wid r.triage_decision r.triage_reasoning))
            wid (mk_notify_approval wid email now)).1).pending_approvals = true
      · rw [if_pos hcc, countKey_aerase]
        omega
      · rw [if_neg hcc]
        exact hc1
    have hc3 : countKey wid
        ((register_suspension
          ((handle_decision
            ((register_suspension
              (addB st (Msg.triage_complete wid r.triage_decision r.triage_reasoning))
              wid (mk_notify_approval wid email now)).1) wid "respond" "" n2).1)
          wid (mk_draft_approval wid (merge_draft r dr) now)).1).pending_approvals ≤ 1 := by
      simp only [register_suspension, addB]
      exact countKey_aset_le _ _ _ hc2
    exact henv _ hc3
  · intro d s' hout
    have hne : (approval_block wid now (merge_draft r dr) exec mem env2
        ((handle_decision
          ((register_suspension
            (addB st (Msg.triage_complete wid r.triage_decision r.triage_reasoning))
            wid (mk_notify_approval wid email now)).1) wid "respond" "" n2).1)
        ([Op.invokeStage1,
          Op.broadcastMsg (Msg.triage_complete wid r.triage_decision r.triage_reasoning)] ++
          (register_suspension
            (addB st (Msg.triage_complete wid r.triage_decision r.triage_reasoning))
            wid (mk_notify_approval wid email now)).2 ++
          [Op.beginWait wid, Op.waitFired wid, Op.invokeDraft])).outcome ≠
        Outcome.timed_out := by
      rw [hout]
      simp
    have h1 := hcount hne
    rw [ht]
    simp [List.count_append, List.count_cons, register_suspension, h1]

/-- Concrete draft-stage output for the respond re-suspension witness. -/
def cDraft : DraftResult :=
  { pending_action := some
      { action_type := "send_email"
        args := { recipient := "alice@example.com", subject := "Re: Launch question"
                  body := "Draft answer." } }
    messages := ["Draft answer."] }

/-- Witness for C4 at a concrete notify-flavor run: first wait resolves with
`respond`, second with `approve`. -/
theorem respond_resuspension_witness :
    (Op.invokeDraft ∈ (run_agent_workflow "w1" cEmail "t0" (Except.ok cNotifyResult)
      (Except.ok cDraft) execStub memStub
      (fun s => (handle_decision s "w1" "respond" "" "t1").1)
      (fun s => (handle_decision s "w1" "approve" "" "t2").1) initSt).ops) ∧
    ((run_agent_workflow "w1" cEmail "t0" (Except.ok cNotifyResult)
      (Except.ok cDraft) execStub memStub
      (fun s => (handle_decision s "w1" "respond" "" "t1").1)
      (fun s => (handle_decision s "w1" "approve" "" "t2").1) initSt).ops.count
        (Op.registerPending "w1") = 2) ∧
    (countKey "w1" (run_agent_workflow "w1" cEmail "t0" (Except.ok cNotifyResult)
      (Except.ok cDraft) execStub memStub
      (fun s => (handle_decision s "w1" "respond" "" "t1").1)
      (fun s => (handle_decision s "w1" "approve" "" "t2").1)
        initSt).st.pending_approvals ≤ 1) ∧
    ((run_agent_workflow "w1" cEmail "t0" (Except.ok cNotifyResult)
      (Except.ok cDraft) execStub memStub
      (fun s => (handle_decision s "w1" "respond" "" "t1").1)
      (fun s => (handle_decision s "w1" "approve" "" "t2").1) initSt).ops.count
        (Op.waitFired "w1") = 2) := by
  have henv : ∀ s : St, countKey "w1" s.pending_approvals ≤ 1 →
      countKey "w1" (((fun s => (handle_decision s "w1" "approve" "" "t2").1) s).pending_approvals) ≤ 1 := by
    intro s hs
    rw [handle_decision_pending]
    by_cases hcc : containsKey "w1" s.pending_approvals = true
    · rw [if_pos hcc, countKey_aerase]
      omega
    · rw [if_neg hcc]
      exact hs
  obtain ⟨w1, w2, w3, w4, w5⟩ := respond_resuspension "w1" cEmail "t0" "t1"
    cNotifyResult cDraft execStub memStub
    (fun s => (handle_decision s "w1" "approve" "" "t2").1) initSt
    rfl (by decide) henv
  exact ⟨w1, w2, w4, w5 "approve" "" (by decide)⟩
